import Mathlib

/-!
Verification of the pixbin-python client SDK (`src/pixbin/client.py`).

The file shallowly embeds the parts of the client the claims are about:
the HMAC-SHA256 URL signer, the HTTP error mapping, the transform-URL
builder, the upload orchestration (start / store / dimension probe /
complete / poll), the transformed-variant download loop, and the pure
transform-parameter builders.  Machine integers are modelled as `Nat`
with explicit `% 2 ^ 32` where 32-bit wraparound matters; fallible
Python code is modelled with `Except`/`Option`; the remote server and
the filesystem are modelled as explicit environments supplied to the
functions.
-/

/-! ### Bit-level helpers for SHA-256 (32-bit words as `Nat` mod 2^32) -/

def w32mod : Nat := 4294967296

def rotr (n x : Nat) : Nat := ((x >>> n) ||| (x <<< (32 - n))) % w32mod

def shr (n x : Nat) : Nat := x >>> n

def chf (x y z : Nat) : Nat := (x &&& y) ^^^ ((x ^^^ 4294967295) &&& z)

def majf (x y z : Nat) : Nat := (x &&& y) ^^^ (x &&& z) ^^^ (y &&& z)

def bigSigma0 (x : Nat) : Nat := rotr 2 x ^^^ rotr 13 x ^^^ rotr 22 x

def bigSigma1 (x : Nat) : Nat := rotr 6 x ^^^ rotr 11 x ^^^ rotr 25 x

def smallSigma0 (x : Nat) : Nat := rotr 7 x ^^^ rotr 18 x ^^^ shr 3 x

def smallSigma1 (x : Nat) : Nat := rotr 17 x ^^^ rotr 19 x ^^^ shr 10 x

/-- The 64 SHA-256 round constants (FIPS 180-4, section 4.2.2), in rounds
0-7, 8-15, ..., 56-63 order. -/
def sha256K : List Nat :=
  [0x428a2f98, 0x71374491, 0xb5c0fbcf, 0xe9b5dba5, 0x3956c25b, 0x59f111f1, 0x923f82a4, 0xab1c5ed5]
  ++ [0xd807aa98, 0x12835b01, 0x243185be, 0x550c7dc3, 0x72be5d74, 0x80deb1fe, 0x9bdc06a7, 0xc19bf174]
  ++ [0xe49b69c1, 0xefbe4786, 0x0fc19dc6, 0x240ca1cc, 0x2de92c6f, 0x4a7484aa, 0x5cb0a9dc, 0x76f988da]
  ++ [0x983e5152, 0xa831c66d, 0xb00327c8, 0xbf597fc7, 0xc6e00bf3, 0xd5a79147, 0x06ca6351, 0x14292967]
  ++ [0x27b70a85, 0x2e1b2138, 0x4d2c6dfc, 0x53380d13, 0x650a7354, 0x766a0abb, 0x81c2c92e, 0x92722c85]
  ++ [0xa2bfe8a1, 0xa81a664b, 0xc24b8b70, 0xc76c51a3, 0xd192e819, 0xd6990624, 0xf40e3585, 0x106aa070]
  ++ [0x19a4c116, 0x1e376c08, 0x2748774c, 0x34b0bcb5, 0x391c0cb3, 0x4ed8aa4a, 0x5b9cca4f, 0x682e6ff3]
  ++ [0x748f82ee, 0x78a5636f, 0x84c87814, 0x8cc70208, 0x90befffa, 0xa4506ceb, 0xbef9a3f7, 0xc67178f2]

/-- Big-endian packing of bytes into 32-bit words. -/
def bytesToWords : List Nat → List Nat
  | b0 :: b1 :: b2 :: b3 :: rest =>
      ((b0 <<< 24) ||| (b1 <<< 16) ||| (b2 <<< 8) ||| b3) :: bytesToWords rest
  | _ => []

/-- One extension step of the SHA-256 message schedule. -/
def wstep (w : List Nat) : List Nat :=
  let i := w.length
  w ++ [(smallSigma1 (w.getD (i - 2) 0) + w.getD (i - 7) 0 +
         smallSigma0 (w.getD (i - 15) 0) + w.getD (i - 16) 0) % w32mod]

/-- Full 64-entry message schedule from the 16 words of a block. -/
def mkW (w16 : List Nat) : List Nat := Nat.iterate wstep 48 w16

/-- The eight 32-bit working variables of SHA-256. -/
structure Hash8 where
  a : Nat
  b : Nat
  c : Nat
  d : Nat
  e : Nat
  f : Nat
  g : Nat
  h : Nat
deriving DecidableEq

/-- One SHA-256 compression round, consuming a pair (round constant, schedule word). -/
def compressRound (st : Hash8) (kw : Nat × Nat) : Hash8 :=
  let t1 := (st.h + bigSigma1 st.e + chf st.e st.f st.g + kw.1 + kw.2) % w32mod
  let t2 := (bigSigma0 st.a + majf st.a st.b st.c) % w32mod
  { a := (t1 + t2) % w32mod, b := st.a, c := st.b, d := st.c,
    e := (st.d + t1) % w32mod, f := st.e, g := st.f, h := st.g }

/-- Process one 64-byte block. -/
def processBlock (hv : Hash8) (block : List Nat) : Hash8 :=
  let w := mkW (bytesToWords block)
  let st := (sha256K.zip w).foldl compressRound hv
  { a := (hv.a + st.a) % w32mod, b := (hv.b + st.b) % w32mod,
    c := (hv.c + st.c) % w32mod, d := (hv.d + st.d) % w32mod,
    e := (hv.e + st.e) % w32mod, f := (hv.f + st.f) % w32mod,
    g := (hv.g + st.g) % w32mod, h := (hv.h + st.h) % w32mod }

/-- SHA-256 initial hash value. -/
def sha256H0 : Hash8 :=
  ⟨0x6a09e667, 0xbb67ae85, 0x3c6ef372, 0xa54ff53a,
   0x510e527f, 0x9b05688c, 0x1f83d9ab, 0x5be0cd19⟩

/-- SHA-256 padding: append 0x80, zeros, and the 64-bit big-endian bit length. -/
def padMsg (msg : List Nat) : List Nat :=
  let L := msg.length
  let padlen := (119 - L % 64) % 64
  let bits := L * 8
  msg ++ [128] ++ List.replicate padlen 0 ++
    [(bits >>> 56) % 256, (bits >>> 48) % 256, (bits >>> 40) % 256, (bits >>> 32) % 256,
     (bits >>> 24) % 256, (bits >>> 16) % 256, (bits >>> 8) % 256, bits % 256]

/-- Split into 64-byte blocks; the `Nat` argument is structural fuel (the list
length bounds the number of blocks). -/
def chunksAux : Nat → List Nat → List (List Nat)
  | 0, _ => []
  | _, [] => []
  | n + 1, l => l.take 64 :: chunksAux n (l.drop 64)

def chunks64 (l : List Nat) : List (List Nat) := chunksAux l.length l

/-- Big-endian bytes of one 32-bit word. -/
def wordBytes (w : Nat) : List Nat :=
  [(w >>> 24) % 256, (w >>> 16) % 256, (w >>> 8) % 256, w % 256]

def digestBytes (hv : Hash8) : List Nat :=
  wordBytes hv.a ++ wordBytes hv.b ++ wordBytes hv.c ++ wordBytes hv.d ++
  wordBytes hv.e ++ wordBytes hv.f ++ wordBytes hv.g ++ wordBytes hv.h

/-- SHA-256 of a byte list (each entry < 256), as 32 bytes.  Models Python's
`hashlib.sha256`. -/
def sha256 (msg : List Nat) : List Nat :=
  digestBytes ((chunks64 (padMsg msg)).foldl processBlock sha256H0)

/-- HMAC-SHA256 (block size 64), as used by Python's `hmac.new(key, msg, hashlib.sha256)`. -/
def hmacSha256 (key msg : List Nat) : List Nat :=
  let k0 := if 64 < key.length then sha256 key else key
  let k1 := k0 ++ List.replicate (64 - k0.length) 0
  let ipad := k1.map (fun b => b ^^^ 0x36)
  let opad := k1.map (fun b => b ^^^ 0x5c)
  sha256 (opad ++ sha256 (ipad ++ msg))

/-- Lowercase hex digit for a value < 16. -/
def hexChar (n : Nat) : Char := Char.ofNat (if n < 10 then 48 + n else 87 + n)

def hexDigits : List Char := "0123456789abcdef".data

/-- Lowercase hex encoding of a byte list; models `.hexdigest()`. -/
def hexChars (bs : List Nat) : List Char :=
  bs.flatMap (fun b => [hexChar (b / 16), hexChar (b % 16)])

/-- UTF-8 encoding of one Unicode scalar value. -/
def utf8Char (c : Nat) : List Nat :=
  if c < 0x80 then [c]
  else if c < 0x800 then [0xC0 ||| (c >>> 6), 0x80 ||| (c &&& 0x3F)]
  else if c < 0x10000 then
    [0xE0 ||| (c >>> 12), 0x80 ||| ((c >>> 6) &&& 0x3F), 0x80 ||| (c &&& 0x3F)]
  else
    [0xF0 ||| (c >>> 18), 0x80 ||| ((c >>> 12) &&& 0x3F),
     0x80 ||| ((c >>> 6) &&& 0x3F), 0x80 ||| (c &&& 0x3F)]

/-- UTF-8 bytes of a string; models Python's `str.encode()`. -/
def strBytes (s : String) : List Nat := s.data.flatMap (fun ch => utf8Char ch.toNat)

/-! ### The signer (`PixbinClient._generate_signature`, client.py lines 258-272) -/

/-- `_generate_signature`: HMAC-SHA256 keyed by the API token over
`"{image_id}:{params}"`, hex-encoded, truncated to the first 16 characters
(client.py lines 258-272). -/
def generate_signature (api_token image_id params : String) : String :=
  let message := image_id ++ ":" ++ params
  let digest := hmacSha256 (strBytes api_token) (strBytes message)
  String.mk ((hexChars digest).take 16)

/-! ### Exceptions and transport error mapping (client.py lines 24-98) -/

/-- The Python exceptions the client can raise.  `pixbinError` is the base
class `PixbinError` (raised directly by `_handle_errors` for generic API
errors and by `download_transformed`); `keyError` models a Python
`KeyError` from a dict subscript; `httpError` models
`requests.HTTPError` from `raise_for_status()`. -/
inductive PyExc where
  | pixbinError (msg : String)
  | authError (msg : String)
  | quotaError (msg : String)
  | uploadError (msg : String)
  | keyError (key : String)
  | httpError (status : Nat)
deriving DecidableEq

/-- An HTTP response as observed by the client (after the HTTP library has
followed any redirects).  `jsonDict` is `some d` when the body parses as a
JSON object, modelled as a string-to-string association list (the only
shape the code reads fields from); it is `none` when `response.json()`
raises or the parsed value has no `.get` (the `except` path). -/
structure HttpResponse where
  status_code : Nat
  text : String
  jsonDict : Option (List (String × String))

/-- `requests.Response.raise_for_status` raises iff the status is in
[400, 600). -/
def raiseForStatusRaises (status : Nat) : Prop := 400 ≤ status ∧ status < 600

instance (s : Nat) : Decidable (raiseForStatusRaises s) := by
  unfold raiseForStatusRaises; infer_instance

/-- `PixbinClient._handle_errors` (client.py lines 86-98): 401 ↦ auth error,
413 ↦ quota error, any other status ≥ 400 ↦ generic `PixbinError` whose
message carries the JSON body's `error` field when available, else the raw
body text.  Returns `none` when no exception is raised. -/
def handle_errors (r : HttpResponse) : Option PyExc :=
  if r.status_code = 401 then
    some (.authError ("Authentication failed: " ++ r.text))
  else if r.status_code = 413 then
    some (.quotaError ("Quota exceeded: " ++ r.text))
  else if 400 ≤ r.status_code then
    let error_msg :=
      match r.jsonDict with
      | some d => ((d.lookup "error").getD r.text)
      | none => r.text
    some (.pixbinError ("API error (" ++ toString r.status_code ++ "): " ++ error_msg))
  else none

/-- The error check `_get`/`_post` (client.py lines 72-84) apply to every
response from the API host before returning it. -/
def request (r : HttpResponse) : Except PyExc HttpResponse :=
  match handle_errors r with
  | some e => .error e
  | none => .ok r

/-- Headers installed on the client session (client.py lines 64-70); attached
to every API-host call. -/
def sessionHeaders (api_token : String) : List (String × String) :=
  [("Authorization", "Bearer " ++ api_token), ("Content-Type", "application/json")]

/-- Headers of the storage (S3) upload call: it goes through a bare
`requests.post` (client.py line 195), not through the session, so no
Authorization header is attached. -/
def s3UploadHeaders : List (String × String) := []

/-! ### Client construction and transform URLs (client.py lines 58-63, 274-301) -/

/-- Python's `str.rstrip("/")`: remove all trailing slash characters. -/
def rstripSlashes (s : String) : String :=
  String.mk ((s.data.reverse.dropWhile (fun c => c = '/')).reverse)

/-- The configuration state a `PixbinClient` holds. -/
structure PixbinClient where
  api_token : String
  base_url : String
  timeout : Nat

/-- `PixbinClient.__init__` (client.py lines 58-63): stores the token and the
base URL with trailing slashes stripped. -/
def mkClient (api_token base_url : String) (timeout : Nat := 30) : PixbinClient :=
  { api_token := api_token, base_url := rstripSlashes base_url, timeout := timeout }

/-- `PixbinClient.transform_url` (client.py lines 274-301). -/
def transform_url (c : PixbinClient) (image_id params : String)
    (include_host : Bool := true) : String :=
  let signature := generate_signature c.api_token image_id params
  let path := "/api/v1/image/" ++ signature ++ "/" ++ params ++ "/" ++ image_id
  if include_host then c.base_url ++ path else path

/-! ### Transform-parameter builders (client.py lines 366-378) -/

/-- `thumbnail` (client.py lines 366-368). -/
def thumbnail (width height : Int) (quality : Int := 85) : String :=
  "resize:" ++ toString width ++ "x" ++ toString height ++ ":fit,quality:" ++ toString quality

/-- `crop_square` (client.py lines 371-373). -/
def crop_square (size : Int) (mode : String := "center") : String :=
  "crop:" ++ mode ++ ",resize:" ++ toString size ++ "x" ++ toString size ++ ":exact"

/-- `optimize_web` (client.py lines 376-378). -/
def optimize_web (max_width : Int := 1920) (quality : Int := 85) : String :=
  "resize:" ++ toString max_width ++ "x" ++ toString max_width ++ ":fit,quality:" ++
    toString quality ++ ",format:webp"

/-! ### The processing-status poll loop (client.py lines 217-237)

`_wait_for_completion` is a wall-clock loop: the guard compares the elapsed
time against `max_wait`, each iteration performs one `get_status` call and
then sleeps `poll_interval` seconds.  We model time by its idealised
semantics (HTTP calls take no time, `sleep` takes exactly its argument), so
the elapsed time before iteration `k` (0-based) is `k * poll_interval` and
the loop can run at most `numPolls poll_interval max_wait` iterations. -/

/-- A substring claim about an error message. -/
def Mentions (sub s : String) : Prop :=
  ∃ a b : List Char, s.data = a ++ sub.data ++ b

/-- Statuses on which the poll loop stops. -/
def terminalStatus (s : String) : Prop := s = "completed" ∨ s = "failed" ∨ s = "expired"

instance (s : String) : Decidable (terminalStatus s) := by
  unfold terminalStatus; infer_instance

/-- Outcome of `_wait_for_completion`. -/
inductive PollResult where
  | completed
  | procFailed (st : String)
  | timeout
deriving DecidableEq

def procFailedMsg (st : String) : String := "Processing failed: " ++ st

def timeoutMsg (max_wait : Int) : String :=
  "Processing timeout after " ++ toString max_wait ++ "s"

/-- Least number of iterations `n` with `n * poll_interval ≥ max_wait`: the
loop guard `elapsed < max_wait` admits exactly the iterations
`k = 0, …, numPolls - 1` (for `poll_interval > 0`). -/
def numPolls (poll_interval : ℚ) (max_wait : Int) : Nat :=
  (Int.ceil ((max_wait : ℚ) / poll_interval)).toNat

/-- The body of `_wait_for_completion` (client.py lines 226-235): at
iteration `k` it reads `statuses k` (the `processing_status` returned by the
`k`-th `get_status` call), returns on "completed", raises on
"failed"/"expired", otherwise sleeps and continues.  The fuel is the number
of iterations the guard admits; it also counts the polls performed. -/
def pollAux (statuses : Nat → String) : Nat → Nat → PollResult × Nat
  | 0, _ => (.timeout, 0)
  | fuel + 1, k =>
    let s := statuses k
    if s = "completed" then (.completed, 1)
    else if s = "failed" ∨ s = "expired" then (.procFailed s, 1)
    else
      let r := pollAux statuses fuel (k + 1)
      (r.1, r.2 + 1)

/-- `_wait_for_completion` (client.py lines 223-237), paired with the number
of `get_status` polls it performs. -/
def wait_for_completion (statuses : Nat → String) (poll_interval : ℚ)
    (max_wait : Int) : PollResult × Nat :=
  pollAux statuses (numPolls poll_interval max_wait) 0

/-- The tail of `upload_file` (client.py lines 217-221): poll only when
`max_wait > 0`, then return the image id.  Also returns the number of
status polls performed. -/
def uploadPollPhase (image_id : String) (statuses : Nat → String)
    (poll_interval : ℚ) (max_wait : Int) : Except PyExc String × Nat :=
  if 0 < max_wait then
    match wait_for_completion statuses poll_interval max_wait with
    | (.completed, n) => (.ok image_id, n)
    | (.procFailed s, n) => (.error (.uploadError (procFailedMsg s)), n)
    | (.timeout, n) => (.error (.uploadError (timeoutMsg max_wait)), n)
  else (.ok image_id, 0)

/-! ### Transformed-variant download (client.py lines 303-347)

`download_transformed` issues a bare `requests.get` per attempt; the server
is modelled by `responses : Nat → Nat × List Nat`, giving the status code and
body bytes of the `attempt`-th GET (after redirect following). -/

/-- The body of the `for attempt in range(max_retries)` loop (client.py
lines 330-345), iterating over the remaining attempt indices.  200 returns
the body; 202 sleeps and retries unless this is the last attempt (then a
"Transformation timeout" `PixbinError`); any other status goes through
`raise_for_status()`, which raises only for statuses in [400, 600) and
otherwise falls through to the next attempt; an exhausted loop raises a
generic `PixbinError`. -/
def dlLoop (responses : Nat → Nat × List Nat) (max_retries : Nat) :
    List Nat → Except PyExc (List Nat)
  | [] => .error (.pixbinError "Failed to download transformed image")
  | attempt :: rest =>
    let st := (responses attempt).1
    if st = 200 then .ok (responses attempt).2
    else if st = 202 then
      if attempt < max_retries - 1 then dlLoop responses max_retries rest
      else .error (.pixbinError "Transformation timeout - variant still processing")
    else if raiseForStatusRaises st then .error (.httpError st)
    else dlLoop responses max_retries rest

/-- `PixbinClient.download_transformed` (client.py lines 303-347). -/
def download_transformed (responses : Nat → Nat × List Nat)
    (max_retries : Nat := 3) : Except PyExc (List Nat) :=
  dlLoop responses max_retries (List.range max_retries)

/-! ### The upload workflow (client.py lines 100-221) -/

/-- `PixbinClient._extract_dimensions` (client.py lines 100-113): `(0, 0)`
when PIL is unavailable; otherwise the decoded `img.size`, with any decode
exception (modelled by `decoded = none`) degrading to `(0, 0)`. -/
def extract_dimensions (hasPIL : Bool) (decoded : Option (Nat × Nat)) : Nat × Nat :=
  if hasPIL = false then (0, 0)
  else match decoded with
       | some wh => wh
       | none => (0, 0)

/-- The source of an upload: a filesystem path (with its existence flag and
the bytes `open(...).read()` would return), or a file-like object (with its
optional `name` attribute and the bytes its `read()` returns). -/
inductive Source where
  | path (p : String) (pexists : Bool) (content : List Nat)
  | fileObj (name : Option String) (content : List Nat)

/-- `pathlib.Path(p).name` for a plain file path: the last `/`-separated
component. -/
def pathName (p : String) : String := (p.splitOn "/").getLastD p

/-- The source-resolution step of `upload_file` (client.py lines 148-169),
returning `(filename, file_data, file_size, content_type)`.  `guess` models
`mimetypes.guess_type` (an external table lookup); a missing guess defaults
to "application/octet-stream".  For a path source the file must exist, its
size comes from `stat()` (equal to the bytes read for a stable file) and the
mime type is guessed from the full path; for a file-like object no
existence check is made, the bytes come from `read()`, the size is their
length, and the filename is the `name` attribute, defaulting to
"image.jpg". -/
def resolveSource (src : Source) (guess : String → Option String) :
    Except PyExc (String × List Nat × Nat × String) :=
  match src with
  | .path p pexists content =>
    if pexists = false then .error (.uploadError ("File not found: " ++ p))
    else
      let filename := pathName p
      let file_size := content.length
      let content_type := (guess p).getD "application/octet-stream"
      .ok (filename, content, file_size, content_type)
  | .fileObj name content =>
    let filename := name.getD "image.jpg"
    let file_size := content.length
    let content_type := (guess filename).getD "application/octet-stream"
    .ok (filename, content, file_size, content_type)

/-- The JSON body POSTed to `/api/v1/upload/start` (client.py lines 172-182). -/
structure StartReq where
  filename : String
  content_type : String
  file_size : Nat
  caption : String
  priv : Bool
  retention_hours : Int
deriving DecidableEq

/-- The `data` sub-object of the start response; each field is `none` when
the key is absent (subscripting it then raises `KeyError`). -/
structure StartDataDict where
  image_id : Option String
  upload_url : Option String
  upload_fields : Option (List (String × String))

/-- The parsed JSON body of the start response: `status` is
`start_data.get("status")`, `data` is the `"data"` object when present. -/
structure StartJson where
  status : Option String
  data : Option StartDataDict

/-- The JSON body POSTed to `/api/v1/upload/complete` (client.py lines
206-209): always the image id; the `width`/`height` keys only when both
extracted dimensions are positive. -/
structure CompletePayload where
  image_id : String
  dims : Option (Nat × Nat)
deriving DecidableEq

/-- Keys present in the complete payload dict. -/
def CompletePayload.keys (p : CompletePayload) : List String :=
  "image_id" :: (match p.dims with
                 | some _ => ["width", "height"]
                 | none => [])

def mkCompletePayload (image_id : String) (wh : Nat × Nat) : CompletePayload :=
  { image_id := image_id,
    dims := if 0 < wh.1 ∧ 0 < wh.2 then some wh else none }

/-- The environment of one `upload_file` call: the server's responses to the
start POST (as a function of the request sent), the final status of the
storage-host POST (after redirect following), whether PIL is importable and
what decoding the bytes yields, the server's response to the complete POST
(as a function of the payload sent: HTTP response and
`complete_data.get("status")`), and the `processing_status` values returned
by successive `get_status` polls. -/
structure UploadEnv where
  start : StartReq → HttpResponse × StartJson
  s3Status : Nat
  hasPIL : Bool
  decoded : Option (Nat × Nat)
  complete : CompletePayload → HttpResponse × Option String
  statuses : Nat → String

/-- `PixbinClient.upload_file` (client.py lines 115-221).  Argument defaults
mirror the Python signature.  Phase 1 checks the envelope status then
subscripts `data`/`image_id`/`upload_url`/`upload_fields` in source order
(a missing key raises `KeyError`); phase 2 raises `UploadError` exactly
when `raise_for_status` on the storage response raises (status in
[400, 600), surfaced as `requests.RequestException`); then the best-effort
dimension probe, the complete POST with its envelope check, and the poll
phase. -/
def upload_file (src : Source) (guess : String → Option String) (env : UploadEnv)
    (caption : String := "") (priv : Bool := false) (retention_hours : Int := -1)
    (poll_interval : ℚ := 1) (max_wait : Int := 60) : Except PyExc String :=
  match resolveSource src guess with
  | .error e => .error e
  | .ok (filename, _file_data, file_size, content_type) =>
    let req : StartReq :=
      { filename := filename, content_type := content_type, file_size := file_size,
        caption := caption, priv := priv, retention_hours := retention_hours }
    let startPair := env.start req
    match handle_errors startPair.1 with
    | some e => .error e
    | none =>
      let start_data := startPair.2
      if start_data.status ≠ some "success" then
        .error (.uploadError "Upload start failed")
      else
        match start_data.data with
        | none => .error (.keyError "data")
        | some d =>
          match d.image_id with
          | none => .error (.keyError "image_id")
          | some image_id =>
            match d.upload_url with
            | none => .error (.keyError "upload_url")
            | some _upload_url =>
              match d.upload_fields with
              | none => .error (.keyError "upload_fields")
              | some _upload_fields =>
                if raiseForStatusRaises env.s3Status then
                  .error (.uploadError ("S3 upload failed: status " ++ toString env.s3Status))
                else
                  let wh := extract_dimensions env.hasPIL env.decoded
                  let payload := mkCompletePayload image_id wh
                  let completePair := env.complete payload
                  match handle_errors completePair.1 with
                  | some e => .error e
                  | none =>
                    if completePair.2 ≠ some "success" then
                      .error (.uploadError "Upload completion failed")
                    else
                      (uploadPollPhase image_id env.statuses poll_interval max_wait).1

/-! ### Statuses that fall through `raise_for_status` and concrete test fixtures -/

/-- A download-loop attempt "passes through": not 200 (no return) and not in
the raising range of `raise_for_status` (so execution proceeds to the next
attempt, with a sleep only in the 202 branch). -/
def passStatus (st : Nat) : Prop := st ≠ 200 ∧ ¬ raiseForStatusRaises st

instance (st : Nat) : Decidable (passStatus st) := by
  unfold passStatus; infer_instance

/-- A 200 API response with an empty body. -/
def okResp : HttpResponse := { status_code := 200, text := "", jsonDict := none }

/-- A mime-guess table with no entries (guess always fails). -/
def noGuess : String → Option String := fun _ => none

/-- A 401 response. -/
def resp401 : HttpResponse := { status_code := 401, text := "denied", jsonDict := none }

/-- A 500 response whose JSON body has an `error` field. -/
def resp500 : HttpResponse :=
  { status_code := 500, text := "raw body", jsonDict := some [("error", "boom")] }

/-- Status sequence: pending, then completed. -/
def pollWitStatuses : Nat → String := fun k => if k = 0 then "pending" else "completed"

/-- Transform-download responses: a 304 (not retried by `raise_for_status`)
followed by a 200 with body `[1]`. -/
def dlCexResponses : Nat → Nat × List Nat := fun k => if k = 0 then (304, []) else (200, [1])

/-- Transform-download responses: always 202. -/
def dlWitResponses : Nat → Nat × List Nat := fun _ => (202, [])

/-- A server whose start response is a success envelope missing the
`image_id` key. -/
def envCex5 : UploadEnv :=
  { start := fun _ => (okResp,
      { status := some "success",
        data := some { image_id := none, upload_url := some "https://s3.example/up",
                       upload_fields := some [] } }),
    s3Status := 204, hasPIL := true, decoded := some (10, 20),
    complete := fun _ => (okResp, some "success"),
    statuses := fun _ => "completed" }

/-- A server whose start response is a non-success envelope. -/
def envWit5 : UploadEnv :=
  { start := fun _ => (okResp, { status := some "error", data := none }),
    s3Status := 204, hasPIL := false, decoded := none,
    complete := fun _ => (okResp, some "success"),
    statuses := fun _ => "completed" }

/-- A well-formed upload environment whose storage host answers the S3 POST
with status 304 (non-2xx but outside the raising range of
`raise_for_status`). -/
def envCex6 : UploadEnv :=
  { start := fun _ => (okResp,
      { status := some "success",
        data := some { image_id := some "img123", upload_url := some "https://s3.example/up",
                       upload_fields := some [] } }),
    s3Status := 304, hasPIL := false, decoded := none,
    complete := fun _ => (okResp, some "success"),
    statuses := fun _ => "completed" }

/-! ## Theorems -/

set_option maxRecDepth 100000

/-! ### Validation of the crypto embedding against published test vectors -/

/-- FIPS 180-2 test vector: SHA-256 of "abc". -/
theorem sha256_testvector_abc :
    String.mk (hexChars (sha256 (strBytes "abc"))) =
      "ba7816bf8f01cfea414140de5dae2223b00361a396177a9cb410ff61f20015ad" := by decide

/-- SHA-256 of the empty message. -/
theorem sha256_testvector_empty :
    String.mk (hexChars (sha256 (strBytes ""))) =
      "e3b0c44298fc1c149afbf4c8996fb92427ae41e4649b934ca495991b7852b855" := by decide

/-- RFC 4231 test case 2 for HMAC-SHA256. -/
theorem hmac_testvector_rfc4231 :
    String.mk (hexChars (hmacSha256 (strBytes "Jefe")
      (strBytes "what do ya want for nothing?"))) =
      "5bdcc146bf60754e6a042426089575c75a003f089d2739839dec58b964ec3843" := by decide

/-- UTF-8 encoding check on a 1-byte, 2-byte and 3-byte code point. -/
theorem strBytes_testvector :
    strBytes "aé€" = [0x61, 0xC3, 0xA9, 0xE2, 0x82, 0xAC] := by decide

/-! ### Lemmas about the signer -/

theorem hexChars_length (bs : List Nat) : (hexChars bs).length = 2 * bs.length := by
  induction bs with
  | nil => rfl
  | cons b t ih => simp [hexChars] at ih ⊢; omega

theorem wordBytes_lt (w : Nat) : ∀ b ∈ wordBytes w, b < 256 := by
  intro b hb
  simp [wordBytes] at hb
  rcases hb with h | h | h | h <;> subst h <;> exact Nat.mod_lt _ (by norm_num)

theorem digestBytes_lt (hv : Hash8) : ∀ b ∈ digestBytes hv, b < 256 := by
  intro b hb
  simp only [digestBytes, List.mem_append] at hb
  rcases hb with ((((((h | h) | h) | h) | h) | h) | h) | h <;> exact wordBytes_lt _ _ h

theorem digestBytes_length (hv : Hash8) : (digestBytes hv).length = 32 := by
  simp [digestBytes, wordBytes]

theorem sha256_length (m : List Nat) : (sha256 m).length = 32 := digestBytes_length _

theorem sha256_lt (m : List Nat) : ∀ b ∈ sha256 m, b < 256 := digestBytes_lt _

theorem hmacSha256_length (k m : List Nat) : (hmacSha256 k m).length = 32 :=
  sha256_length _

theorem hmacSha256_lt (k m : List Nat) : ∀ b ∈ hmacSha256 k m, b < 256 := sha256_lt _

theorem hexChar_mem {k : Nat} (hk : k < 16) : hexChar k ∈ hexDigits := by
  interval_cases k <;> decide

theorem mem_hexChars {bs : List Nat} (hb : ∀ b ∈ bs, b < 256) :
    ∀ c ∈ hexChars bs, c ∈ hexDigits := by
  intro c hc
  simp only [hexChars, List.mem_flatMap] at hc
  obtain ⟨b, hbm, hcm⟩ := hc
  have hblt := hb b hbm
  simp only [List.mem_cons, List.mem_singleton] at hcm
  rcases hcm with h | h | h
  · subst h; exact hexChar_mem (by omega)
  · subst h; exact hexChar_mem (by omega)
  · exact absurd h (by simp)

/-- Claim C2: the signature is exactly the first 16 characters of the
lowercase hexadecimal encoding of HMAC-SHA256 keyed by the UTF-8 bytes of
the API token over the UTF-8 bytes of `"{image_id}:{params}"`; the function
is pure and deterministic (identical inputs give the identical 16-character
lowercase-hex output). -/
theorem generate_signature_spec (api_token image_id params : String) :
    generate_signature api_token image_id params =
      String.mk ((hexChars (hmacSha256 (strBytes api_token)
        (strBytes (image_id ++ ":" ++ params)))).take 16)
  ∧ (generate_signature api_token image_id params).length = 16
  ∧ ((generate_signature api_token image_id params).data.all
       (fun c => decide (c ∈ hexDigits))) = true
  ∧ generate_signature api_token image_id params =
      generate_signature api_token image_id params := by
  refine ⟨rfl, ?_, ?_, rfl⟩
  · show (String.mk _).length = 16
    rw [String.length_mk, List.length_take, hexChars_length, hmacSha256_length]
    norm_num
  · rw [List.all_eq_true]
    intro c hc
    rw [decide_eq_true_eq]
    exact mem_hexChars (hmacSha256_lt _ _) c (List.mem_of_mem_take hc)

/-- The signature of a sample input has the claimed 16-character length. -/
theorem generate_signature_spec_witness :
    (generate_signature "secret" "img-1" "resize:300x300:fit").length = 16 :=
  (generate_signature_spec "secret" "img-1" "resize:300x300:fit").2.1

/-- Claim C9: the transform-parameter builders are pure string formatters
with their documented shapes and defaults (`quality`/`mode`/`max_width`
defaulting to 85/"center"/1920), performing no range validation (negative
and zero values are formatted unchanged). -/
theorem transform_params_builders_spec :
    (∀ w h q : Int, thumbnail w h q =
       "resize:" ++ toString w ++ "x" ++ toString h ++ ":fit,quality:" ++ toString q)
  ∧ (∀ w h : Int, thumbnail w h = thumbnail w h 85)
  ∧ (∀ s : Int, ∀ m : String, crop_square s m =
       "crop:" ++ m ++ ",resize:" ++ toString s ++ "x" ++ toString s ++ ":exact")
  ∧ (∀ s : Int, crop_square s = crop_square s "center")
  ∧ (∀ w q : Int, optimize_web w q =
       "resize:" ++ toString w ++ "x" ++ toString w ++ ":fit,quality:" ++
         toString q ++ ",format:webp")
  ∧ optimize_web = "resize:1920x1920:fit,quality:85,format:webp"
  ∧ thumbnail 300 300 85 = "resize:300x300:fit,quality:85"
  ∧ crop_square 200 = "crop:center,resize:200x200:exact"
  ∧ thumbnail (-5) 0 (-3) = "resize:-5x0:fit,quality:-3"
  ∧ crop_square (-2) "north" = "crop:north,resize:-2x-2:exact"
  ∧ optimize_web (-1) 85 = "resize:-1x-1:fit,quality:85,format:webp" := by
  refine ⟨fun _ _ _ => rfl, fun _ _ => rfl, fun _ _ => rfl, fun _ => rfl, fun _ _ => rfl,
    ?_, ?_, ?_, ?_, ?_, ?_⟩ <;> decide

/-- The default web-optimization preset formats as documented. -/
theorem transform_params_builders_spec_witness :
    optimize_web = "resize:1920x1920:fit,quality:85,format:webp" :=
  transform_params_builders_spec.2.2.2.2.2.1

/-! ### Transform URLs (C7) -/

theorem head_dropWhile_false (p : Char → Bool) :
    ∀ (l : List Char) (a : Char), (l.dropWhile p).head? = some a → p a = false := by
  intro l
  induction l with
  | nil => intro a h; simp [List.dropWhile] at h
  | cons x t ih =>
    intro a h
    rw [List.dropWhile_cons] at h
    by_cases hx : p x
    · rw [if_pos hx] at h; exact ih a h
    · rw [if_neg hx] at h
      simp only [List.head?_cons, Option.some.injEq] at h
      subst h
      simpa using hx

theorem rstripSlashes_no_trailing (s : String) :
    (rstripSlashes s).data.getLast? ≠ some '/' := by
  intro h
  rw [rstripSlashes] at h
  have h2 : ((s.data.reverse.dropWhile (fun c => c = '/')).reverse).getLast? = some '/' := h
  rw [List.getLast?_reverse] at h2
  have := head_dropWhile_false (fun c => c = '/') _ _ h2
  simp at this

theorem rstripSlashes_append_slash (s : String) :
    rstripSlashes (s ++ "/") = rstripSlashes s := by
  have hdata : (s ++ "/").data = s.data ++ ['/'] := by
    rw [String.data_append]
  simp [rstripSlashes, hdata, List.dropWhile]

/-- Claim C7: `transform_url` with `include_host := false` is exactly
`/api/v1/image/{signature}/{params}/{image_id}` (a string starting with
`/`, no scheme or host); with `include_host := true` it is the stored base
URL (trailing slashes stripped at construction) prepended to that same
path, so no double slash can occur at the join, and a base URL given with a
trailing slash yields the same client state as one without. -/
theorem transform_url_spec (api_token base_url image_id params : String) :
    (transform_url (mkClient api_token base_url) image_id params false =
      "/api/v1/image/" ++ generate_signature api_token image_id params ++ "/" ++
        params ++ "/" ++ image_id)
  ∧ (transform_url (mkClient api_token base_url) image_id params true =
      rstripSlashes base_url ++
        transform_url (mkClient api_token base_url) image_id params false)
  ∧ (transform_url (mkClient api_token base_url) image_id params false).data.head? =
      some '/'
  ∧ (rstripSlashes base_url).data.getLast? ≠ some '/'
  ∧ mkClient api_token (base_url ++ "/") = mkClient api_token base_url := by
  refine ⟨rfl, rfl, ?_, rstripSlashes_no_trailing _, ?_⟩
  · show ("/api/v1/image/" ++ generate_signature api_token image_id params ++ "/" ++
        params ++ "/" ++ image_id).data.head? = some '/'
    have h : "/api/v1/image/".data = '/' :: "api/v1/image/".data := rfl
    simp [String.data_append, h]
  · simp [mkClient, rstripSlashes_append_slash]

/-- A base URL with a trailing slash produces the same client configuration
as the same base URL without it. -/
theorem transform_url_spec_witness :
    mkClient "tok" ("https://pixbin.net" ++ "/") = mkClient "tok" "https://pixbin.net" :=
  (transform_url_spec "tok" "https://pixbin.net" "img" "p").2.2.2.2

/-! ### Transport error mapping (C3) -/

theorem mentions_of_append (pre v : String) : Mentions v (pre ++ v) :=
  ⟨pre.data, [], by rw [String.data_append]; simp⟩

/-- Claim C3: for every response checked by `_handle_errors` (applied by
`_get`/`_post` after every API-host call): 401 raises the auth error, 413
raises the quota error, any other status ≥ 400 raises the generic
`PixbinError` whose message contains the JSON body's `error` field when the
body parses as JSON with that field, else the raw body text; statuses below
400 raise nothing. -/
theorem handle_errors_spec (r : HttpResponse) :
    (r.status_code = 401 →
       handle_errors r = some (.authError ("Authentication failed: " ++ r.text))
       ∧ request r = .error (.authError ("Authentication failed: " ++ r.text)))
  ∧ (r.status_code = 413 →
       handle_errors r = some (.quotaError ("Quota exceeded: " ++ r.text))
       ∧ request r = .error (.quotaError ("Quota exceeded: " ++ r.text)))
  ∧ (400 ≤ r.status_code → r.status_code ≠ 401 → r.status_code ≠ 413 →
       ∃ msg, handle_errors r = some (.pixbinError msg)
         ∧ request r = .error (.pixbinError msg)
         ∧ (∀ d v, r.jsonDict = some d → d.lookup "error" = some v → Mentions v msg)
         ∧ (r.jsonDict = none → Mentions r.text msg)
         ∧ (∀ d, r.jsonDict = some d → d.lookup "error" = none → Mentions r.text msg))
  ∧ (r.status_code < 400 → handle_errors r = none ∧ request r = .ok r) := by
  refine ⟨?_, ?_, ?_, ?_⟩
  · intro h401
    constructor
    · simp [handle_errors, h401]
    · simp [request, handle_errors, h401]
  · intro h413
    constructor
    · simp [handle_errors, h413]
    · simp [request, handle_errors, h413]
  · intro hge hn401 hn413
    refine ⟨"API error (" ++ toString r.status_code ++ "): " ++
      (match r.jsonDict with
       | some d => ((d.lookup "error").getD r.text)
       | none => r.text), ?_, ?_, ?_, ?_, ?_⟩
    · simp [handle_errors, hn401, hn413, hge]
    · simp [request, handle_errors, hn401, hn413, hge]
    · intro d v hd hv
      rw [hd]
      show Mentions v ("API error (" ++ toString r.status_code ++ "): " ++
        ((d.lookup "error").getD r.text))
      rw [hv]
      exact mentions_of_append _ _
    · intro hd
      rw [hd]
      exact mentions_of_append _ _
    · intro d hd hv
      rw [hd]
      show Mentions r.text ("API error (" ++ toString r.status_code ++ "): " ++
        ((d.lookup "error").getD r.text))
      rw [hv]
      exact mentions_of_append _ _
  · intro hlt
    have hn401 : r.status_code ≠ 401 := by omega
    have hn413 : r.status_code ≠ 413 := by omega
    constructor
    · simp [handle_errors, hn401, hn413]; omega
    · simp [request, handle_errors, hn401, hn413, Nat.not_le.mpr hlt]

/-- On a concrete 401 response the typed auth error is raised. -/
theorem handle_errors_spec_witness :
    handle_errors resp401 = some (.authError ("Authentication failed: " ++ "denied"))
    ∧ handle_errors resp500 ≠ none :=
  ⟨((handle_errors_spec resp401).1 rfl).1, by
    obtain ⟨msg, hm, -⟩ := (handle_errors_spec resp500).2.2.1 (by decide)
      (by decide) (by decide)
    rw [hm]
    simp⟩

/-! ### The poll loop (C1) -/

theorem pollAux_terminal (f : Nat → String) :
    ∀ (j fuel k : Nat), j < fuel → (∀ i, i < j → ¬ terminalStatus (f (k + i))) →
    ((f (k + j) = "completed" → pollAux f fuel k = (.completed, j + 1))
     ∧ (f (k + j) = "failed" ∨ f (k + j) = "expired" →
          pollAux f fuel k = (.procFailed (f (k + j)), j + 1))) := by
  intro j
  induction j with
  | zero =>
    intro fuel k hj _hnt
    obtain ⟨fuel', rfl⟩ : ∃ m, fuel = m + 1 := ⟨fuel - 1, by omega⟩
    rw [Nat.add_zero]
    constructor
    · intro hc
      simp [pollAux, hc]
    · intro hfe
      have hne : ¬ (f k = "completed") := by
        rcases hfe with h | h <;> rw [h] <;> decide
      simp [pollAux, hne, hfe]
  | succ j ih =>
    intro fuel k hj hnt
    obtain ⟨fuel', rfl⟩ : ∃ m, fuel = m + 1 := ⟨fuel - 1, by omega⟩
    have h0 : ¬ terminalStatus (f k) := by
      have := hnt 0 (by omega)
      rwa [Nat.add_zero] at this
    rw [terminalStatus, not_or, not_or] at h0
    obtain ⟨h1, h2, h3⟩ := h0
    have hstep : pollAux f (fuel' + 1) k =
        ((pollAux f fuel' (k + 1)).1, (pollAux f fuel' (k + 1)).2 + 1) := by
      simp [pollAux, h1, h2, h3]
    have hidx : ∀ i : Nat, k + 1 + i = k + (i + 1) := by omega
    have ih' := ih fuel' (k + 1) (by omega)
      (fun i hi => by rw [hidx i]; exact hnt (i + 1) (by omega))
    rw [hidx j] at ih'
    constructor
    · intro hc
      rw [hstep, (ih'.1 hc)]
    · intro hfe
      rw [hstep, (ih'.2 hfe)]

theorem pollAux_timeout (f : Nat → String) :
    ∀ (fuel k : Nat), (∀ i, i < fuel → ¬ terminalStatus (f (k + i))) →
    pollAux f fuel k = (.timeout, fuel) := by
  intro fuel
  induction fuel with
  | zero => intro k _; rfl
  | succ fuel' ih =>
    intro k hnt
    have h0 : ¬ terminalStatus (f k) := by
      have := hnt 0 (by omega)
      rwa [Nat.add_zero] at this
    rw [terminalStatus, not_or, not_or] at h0
    obtain ⟨h1, h2, h3⟩ := h0
    have ih' := ih (k + 1)
      (fun i hi => by
        rw [show k + 1 + i = k + (i + 1) by omega]
        exact hnt (i + 1) (by omega))
    simp [pollAux, h1, h2, h3, ih']

theorem numPolls_pos_mw (poll_interval : ℚ) (max_wait : Int) (hpi : 0 < poll_interval)
    (h : 0 < numPolls poll_interval max_wait) : 0 < max_wait := by
  by_contra hmw
  push_neg at hmw
  have hq : (max_wait : ℚ) / poll_interval ≤ ((0 : ℤ) : ℚ) := by
    push_cast
    exact div_nonpos_iff.mpr (Or.inr ⟨by exact_mod_cast hmw, hpi.le⟩)
  have hc : Int.ceil ((max_wait : ℚ) / poll_interval) ≤ 0 := Int.ceil_le.mpr hq
  have : numPolls poll_interval max_wait = 0 := by
    rw [numPolls]
    omega
  omega

theorem numPolls_iff (poll_interval : ℚ) (max_wait : Int) (hpi : 0 < poll_interval)
    (k : Nat) : k < numPolls poll_interval max_wait ↔
      (k : ℚ) * poll_interval < (max_wait : ℚ) := by
  rw [numPolls, Int.lt_toNat, Int.lt_ceil]
  push_cast
  rw [lt_div_iff₀ hpi]

theorem mentions_timeout (max_wait : Int) : Mentions "timeout" (timeoutMsg max_wait) := by
  refine ⟨"Processing ".data, " after ".data ++ (toString max_wait).data ++ "s".data, ?_⟩
  have h : "Processing timeout after ".data =
      "Processing ".data ++ ("timeout".data ++ " after ".data) := by decide
  simp [timeoutMsg, String.data_append, h]

/-- Claim C1: with `poll_interval > 0`, the poll phase of `upload_file`
(entered only when `max_wait > 0`) performs one status poll per
`poll_interval` of elapsed time (iteration `k` is admitted exactly when
`k * poll_interval < max_wait`); it returns the image id at the first
"completed" status, raises `UploadError "Processing failed: {status}"`
(naming the status) at the first "failed"/"expired" status, raises
`UploadError` mentioning "timeout" when the time budget is exhausted with
no terminal status, and when `max_wait ≤ 0` performs no poll at all and
returns the image id right after the complete phase. -/
theorem upload_poll_spec (statuses : Nat → String) (poll_interval : ℚ) (max_wait : Int)
    (image_id : String) (hpi : 0 < poll_interval) :
    (max_wait ≤ 0 →
       uploadPollPhase image_id statuses poll_interval max_wait = (.ok image_id, 0))
  ∧ (∀ k : Nat, k < numPolls poll_interval max_wait ↔
       (k : ℚ) * poll_interval < (max_wait : ℚ))
  ∧ (∀ k, k < numPolls poll_interval max_wait →
       (∀ j, j < k → ¬ terminalStatus (statuses j)) →
       ((statuses k = "completed" →
           uploadPollPhase image_id statuses poll_interval max_wait =
             (.ok image_id, k + 1))
        ∧ (statuses k = "failed" ∨ statuses k = "expired" →
             uploadPollPhase image_id statuses poll_interval max_wait =
               (.error (.uploadError (procFailedMsg (statuses k))), k + 1)
             ∧ Mentions (statuses k) (procFailedMsg (statuses k)))))
  ∧ ((∀ k, k < numPolls poll_interval max_wait → ¬ terminalStatus (statuses k)) →
     0 < max_wait →
       uploadPollPhase image_id statuses poll_interval max_wait =
         (.error (.uploadError (timeoutMsg max_wait)), numPolls poll_interval max_wait)
       ∧ Mentions "timeout" (timeoutMsg max_wait)) := by
  refine ⟨?_, numPolls_iff _ _ hpi, ?_, ?_⟩
  · intro hmw
    rw [uploadPollPhase, if_neg (by omega)]
  · intro k hk hnt
    have hmw : 0 < max_wait := numPolls_pos_mw _ _ hpi (by omega)
    have hterm := pollAux_terminal statuses k (numPolls poll_interval max_wait) 0 hk
      (fun i hi => by rw [Nat.zero_add]; exact hnt i hi)
    rw [Nat.zero_add] at hterm
    constructor
    · intro hc
      rw [uploadPollPhase, if_pos hmw, wait_for_completion, hterm.1 hc]
    · intro hfe
      refine ⟨?_, mentions_of_append _ _⟩
      rw [uploadPollPhase, if_pos hmw, wait_for_completion, hterm.2 hfe]
  · intro hnt hmw
    refine ⟨?_, mentions_timeout _⟩
    have htime := pollAux_timeout statuses (numPolls poll_interval max_wait) 0
      (fun i hi => by rw [Nat.zero_add]; exact hnt i hi)
    rw [uploadPollPhase, if_pos hmw, wait_for_completion, htime]

/-- On the status sequence pending, completed the poll phase returns the
image id after exactly two polls. -/
theorem upload_poll_spec_witness :
    uploadPollPhase "img" pollWitStatuses 1 60 = (.ok "img", 2) := by
  have hnum : numPolls 1 60 = 60 := by
    have h1 : ((60 : Int) : ℚ) / 1 = ((60 : Int) : ℚ) := div_one _
    rw [numPolls, h1, Int.ceil_intCast]
    rfl
  exact ((upload_poll_spec pollWitStatuses 1 60 "img" (by norm_num)).2.2.1 1
    (by rw [hnum]; omega)
    (by intro j hj
        have hj0 : j = 0 := by omega
        subst hj0
        rw [terminalStatus]
        decide)).1 rfl

/-! ### The transformed-variant download loop (C4) -/

theorem dlLoop_run (resp : Nat → Nat × List Nat) (mr : Nat) :
    ∀ (j n a : Nat), j < n → a + n ≤ mr →
    (∀ i, i < j → passStatus (resp (a + i)).1) →
    (((resp (a + j)).1 = 200 →
        dlLoop resp mr (List.range' a n) = .ok (resp (a + j)).2)
     ∧ (raiseForStatusRaises (resp (a + j)).1 →
          dlLoop resp mr (List.range' a n) = .error (.httpError (resp (a + j)).1))
     ∧ ((resp (a + j)).1 = 202 → a + j + 1 = mr →
          dlLoop resp mr (List.range' a n) =
            .error (.pixbinError "Transformation timeout - variant still processing"))) := by
  intro j
  induction j with
  | zero =>
    intro n a hj hbound _hp
    obtain ⟨n', rfl⟩ : ∃ m, n = m + 1 := ⟨n - 1, by omega⟩
    rw [Nat.add_zero]
    have hrange : List.range' a (n' + 1) = a :: List.range' (a + 1) n' := rfl
    refine ⟨?_, ?_, ?_⟩
    · intro h200
      rw [hrange]
      simp [dlLoop, h200]
    · intro hraise
      have hn200 : (resp a).1 ≠ 200 := by
        rw [raiseForStatusRaises] at hraise; omega
      have hn202 : (resp a).1 ≠ 202 := by
        rw [raiseForStatusRaises] at hraise; omega
      rw [hrange]
      simp [dlLoop, hn200, hn202, hraise]
    · intro h202 hlast
      rw [hrange]
      have hnl : ¬ (a < mr - 1) := by omega
      simp [dlLoop, h202, hnl]
  | succ j ih =>
    intro n a hj hbound hp
    obtain ⟨n', rfl⟩ : ∃ m, n = m + 1 := ⟨n - 1, by omega⟩
    have hrange : List.range' a (n' + 1) = a :: List.range' (a + 1) n' := rfl
    have hpa : passStatus (resp a).1 := by
      have := hp 0 (by omega)
      rwa [Nat.add_zero] at this
    obtain ⟨hn200, hnr⟩ := hpa
    have hcont : dlLoop resp mr (List.range' a (n' + 1)) =
        dlLoop resp mr (List.range' (a + 1) n') := by
      rw [hrange]
      by_cases h202 : (resp a).1 = 202
      · have hlt : a < mr - 1 := by omega
        simp [dlLoop, hn200, h202, hlt]
      · simp [dlLoop, hn200, h202, hnr]
    have hidx : ∀ i : Nat, a + 1 + i = a + (i + 1) := by omega
    have ih' := ih n' (a + 1) (by omega) (by omega)
      (fun i hi => by rw [hidx i]; exact hp (i + 1) (by omega))
    rw [hidx j] at ih'
    rw [hcont]
    exact ⟨fun h => ih'.1 h, fun h => ih'.2.1 h,
      fun h hl => ih'.2.2 h (by omega)⟩

theorem dlLoop_exhaust (resp : Nat → Nat × List Nat) (mr : Nat) :
    ∀ (n a : Nat), a + n ≤ mr →
    (∀ i, i < n → passStatus (resp (a + i)).1 ∧ ((resp (a + i)).1 = 202 → a + i + 1 < mr)) →
    dlLoop resp mr (List.range' a n) =
      .error (.pixbinError "Failed to download transformed image") := by
  intro n
  induction n with
  | zero => intro a _ _; rfl
  | succ n' ih =>
    intro a hbound hp
    have hrange : List.range' a (n' + 1) = a :: List.range' (a + 1) n' := rfl
    have hpa := hp 0 (by omega)
    rw [Nat.add_zero] at hpa
    obtain ⟨⟨hn200, hnr⟩, h202im⟩ := hpa
    have hcont : dlLoop resp mr (List.range' a (n' + 1)) =
        dlLoop resp mr (List.range' (a + 1) n') := by
      rw [hrange]
      by_cases h202 : (resp a).1 = 202
      · have hlt : a < mr - 1 := by have := h202im h202; omega
        simp [dlLoop, hn200, h202, hlt]
      · simp [dlLoop, hn200, h202, hnr]
    rw [hcont]
    exact ih (a + 1) (by omega)
      (fun i hi => by
        rw [show a + 1 + i = a + (i + 1) by omega]
        exact hp (i + 1) (by omega))

/-- Claim C4 (amended): a 200 response returns the body bytes; a 202 sleeps
and retries, for at most `max_retries` attempts total, and a 202 on the
last attempt raises an error mentioning "timeout"; a status in the raising
range of `raise_for_status` ([400, 600)) raises immediately; but any other
status outside that range (e.g. a 3xx such as 304) does NOT raise
immediately: it falls through, consumes the attempt without sleeping, and
exhausting all attempts that way raises the generic download error. -/
theorem download_transformed_spec (resp : Nat → Nat × List Nat) (mr : Nat) :
    (∀ j, j < mr → (∀ i, i < j → passStatus (resp i).1) →
       (((resp j).1 = 200 → download_transformed resp mr = .ok (resp j).2)
        ∧ (raiseForStatusRaises (resp j).1 →
             download_transformed resp mr = .error (.httpError (resp j).1))
        ∧ ((resp j).1 = 202 → j + 1 = mr →
             download_transformed resp mr =
               .error (.pixbinError "Transformation timeout - variant still processing")
             ∧ Mentions "timeout" "Transformation timeout - variant still processing")))
  ∧ ((∀ i, i < mr → passStatus (resp i).1 ∧ ((resp i).1 = 202 → i + 1 < mr)) →
       download_transformed resp mr =
         .error (.pixbinError "Failed to download transformed image")) := by
  have hment : Mentions "timeout" "Transformation timeout - variant still processing" :=
    ⟨"Transformation ".data, " - variant still processing".data, by decide⟩
  constructor
  · intro j hj hp
    have hrun := dlLoop_run resp mr j mr 0 hj (by omega)
      (fun i hi => by rw [Nat.zero_add]; exact hp i hi)
    rw [Nat.zero_add] at hrun
    rw [download_transformed, List.range_eq_range']
    exact ⟨hrun.1, hrun.2.1, fun h hl => ⟨hrun.2.2 h (by omega), hment⟩⟩
  · intro hp
    rw [download_transformed, List.range_eq_range']
    exact dlLoop_exhaust resp mr mr 0 (by omega)
      (fun i hi => by rw [Nat.zero_add]; exact hp i hi)

/-- Counterexample to claim C4 as stated: with two attempts allowed, a first
response of status 304 (non-2xx) does not raise immediately; the loop
retries and returns the 200 body of the second attempt. -/
theorem download_transformed_cex :
    download_transformed dlCexResponses 2 = .ok [1] := by rfl

/-- A single all-202 attempt raises the transformation-timeout error. -/
theorem download_transformed_spec_witness :
    download_transformed dlWitResponses 1 =
      .error (.pixbinError "Transformation timeout - variant still processing") :=
  (((download_transformed_spec dlWitResponses 1).1 0 (by omega)
    (fun i hi => absurd hi (by omega))).2.2 rfl rfl).1

/-! ### Upload workflow: source resolution, start envelope, S3 phase,
dimension probe (C10, C5, C6, C8) -/

/-- Claim C10: for a file-like source no existence check is made (resolution
never fails, so the "File not found" `UploadError` can only arise for
string/Path sources, where it is exactly what a missing path produces); the
bytes are the object's `read()` output, the size is their length, and the
filename sent to the start endpoint is the object's `name` attribute,
defaulting to "image.jpg" when absent. -/
theorem filelike_source_spec (name : Option String) (content : List Nat)
    (guess : String → Option String) :
    resolveSource (.fileObj name content) guess =
      .ok (name.getD "image.jpg", content, content.length,
           (guess (name.getD "image.jpg")).getD "application/octet-stream")
  ∧ (∀ e, resolveSource (.fileObj name content) guess ≠ .error e)
  ∧ (name = none →
       resolveSource (.fileObj name content) guess =
         .ok ("image.jpg", content, content.length,
              (guess "image.jpg").getD "application/octet-stream"))
  ∧ (∀ p pcontent, resolveSource (.path p false pcontent) guess =
       .error (.uploadError ("File not found: " ++ p))) := by
  refine ⟨rfl, ?_, ?_, fun p pcontent => rfl⟩
  · intro e h
    simp [resolveSource] at h
  · intro h
    subst h
    rfl

/-- A nameless file-like object resolves with the default filename and never
errors. -/
theorem filelike_source_spec_witness :
    resolveSource (.fileObj none [1, 2]) noGuess ≠ .error (.keyError "name")
    ∧ resolveSource (.fileObj none [1, 2]) noGuess =
        .ok ("image.jpg", [1, 2], 2, "application/octet-stream") :=
  ⟨(filelike_source_spec none [1, 2] noGuess).2.1 (.keyError "name"),
   (filelike_source_spec none [1, 2] noGuess).2.2.1 rfl⟩

/-- Claim C8: the dimension probe never fails the upload: with no decoder or
a failed decode the extracted dimensions are (0, 0), the complete payload
then carries only the `image_id` key, the width/height keys are present
exactly when both extracted values are positive, and the outcome of
`upload_file` is unchanged by the probe's result (for a server whose
complete-phase response does not depend on the payload). -/
theorem dimension_probe_spec (image_id : String) :
    (∀ d, extract_dimensions false d = (0, 0))
  ∧ (∀ b, extract_dimensions b none = (0, 0))
  ∧ (∀ b d, (b = false ∨ d = none) →
       (mkCompletePayload image_id (extract_dimensions b d)).keys = ["image_id"])
  ∧ (∀ w h : Nat, (mkCompletePayload image_id (w, h)).keys =
       if 0 < w ∧ 0 < h then ["image_id", "width", "height"] else ["image_id"])
  ∧ (∀ (src : Source) (guess : String → Option String) (env : UploadEnv)
       (caption : String) (priv : Bool) (retention_hours : Int)
       (poll_interval : ℚ) (max_wait : Int) (b : Bool) (d : Option (Nat × Nat)),
       (∀ p q : CompletePayload, env.complete p = env.complete q) →
       upload_file src guess { env with hasPIL := b, decoded := d }
           caption priv retention_hours poll_interval max_wait =
         upload_file src guess { env with hasPIL := false, decoded := none }
           caption priv retention_hours poll_interval max_wait) := by
  refine ⟨fun d => rfl, ?_, ?_, ?_, ?_⟩
  · intro b
    cases b <;> rfl
  · intro b d h
    rcases h with h | h
    · subst h; rfl
    · subst h; cases b <;> rfl
  · intro w h
    by_cases hw : 0 < w ∧ 0 < h
    · rw [if_pos hw]
      simp [mkCompletePayload, CompletePayload.keys, hw]
    · rw [if_neg hw]
      simp [mkCompletePayload, CompletePayload.keys, hw]
  · intro src guess env caption priv retention_hours poll_interval max_wait b d hcomp
    unfold upload_file
    cases hres : resolveSource src guess with
    | error e => rfl
    | ok out =>
      obtain ⟨filename, file_data, file_size, content_type⟩ := out
      simp only
      cases handle_errors (env.start _).1 with
      | some e => rfl
      | none =>
        simp only
        split
        · rfl
        · cases (env.start _).2.data with
          | none => rfl
          | some dd =>
            simp only
            cases dd.image_id with
            | none => rfl
            | some iid =>
              simp only
              cases dd.upload_url with
              | none => rfl
              | some uu =>
                simp only
                cases dd.upload_fields with
                | none => rfl
                | some uf =>
                  simp only
                  split
                  · rfl
                  · rw [hcomp (mkCompletePayload iid
                        (extract_dimensions b d))
                        (mkCompletePayload iid (extract_dimensions false none))]

/-- A failed decode with PIL available still yields a payload with only the
image id. -/
theorem dimension_probe_spec_witness :
    (mkCompletePayload "img" (extract_dimensions true none)).keys = ["image_id"] :=
  (dimension_probe_spec "img").2.2.1 true none (Or.inr rfl)

/-- Claim C5 (amended): after a successful start POST, a response envelope
whose `status` is not "success" raises `UploadError` ("Upload start
failed"); but a "success" envelope missing the `data` object or one of its
`image_id` / `upload_url` / `upload_fields` keys raises a Python `KeyError`
from the dict subscript — not an `UploadError`. -/
theorem upload_start_shape_spec (src : Source) (guess : String → Option String)
    (env : UploadEnv) (caption : String) (priv : Bool) (retention_hours : Int)
    (poll_interval : ℚ) (max_wait : Int)
    (filename : String) (file_data : List Nat) (file_size : Nat) (content_type : String)
    (hres : resolveSource src guess = .ok (filename, file_data, file_size, content_type))
    (req : StartReq)
    (hreq : req = { filename := filename, content_type := content_type,
                    file_size := file_size, caption := caption, priv := priv,
                    retention_hours := retention_hours })
    (hhttp : handle_errors (env.start req).1 = none) :
    ((env.start req).2.status ≠ some "success" →
       upload_file src guess env caption priv retention_hours poll_interval max_wait =
         .error (.uploadError "Upload start failed"))
  ∧ ((env.start req).2.status = some "success" →
       (((env.start req).2.data = none →
           upload_file src guess env caption priv retention_hours poll_interval max_wait =
             .error (.keyError "data"))
        ∧ (∀ d, (env.start req).2.data = some d →
             ((d.image_id = none →
                 upload_file src guess env caption priv retention_hours poll_interval
                     max_wait =
                   .error (.keyError "image_id"))
              ∧ (∀ iid, d.image_id = some iid → d.upload_url = none →
                   upload_file src guess env caption priv retention_hours poll_interval
                       max_wait =
                     .error (.keyError "upload_url"))
              ∧ (∀ iid uu, d.image_id = some iid → d.upload_url = some uu →
                   d.upload_fields = none →
                   upload_file src guess env caption priv retention_hours poll_interval
                       max_wait =
                     .error (.keyError "upload_fields")))))) := by
  subst hreq
  constructor
  · intro hstat
    unfold upload_file
    rw [hres]
    simp only [hhttp]
    rw [if_pos hstat]
  · intro hstat
    refine ⟨?_, ?_⟩
    · intro hdata
      unfold upload_file
      rw [hres]
      simp only [hhttp]
      simp only [if_neg (show ¬ ((env.start _).2.status ≠ some "success") by
        rw [hstat]; simp), hdata]
    · intro d hdata
      refine ⟨?_, ?_, ?_⟩
      · intro hiid
        unfold upload_file
        rw [hres]
        simp only [hhttp]
        simp only [if_neg (show ¬ ((env.start _).2.status ≠ some "success") by
          rw [hstat]; simp), hdata, hiid]
      · intro iid hiid huu
        unfold upload_file
        rw [hres]
        simp only [hhttp]
        simp only [if_neg (show ¬ ((env.start _).2.status ≠ some "success") by
          rw [hstat]; simp), hdata, hiid, huu]
      · intro iid uu hiid huu huf
        unfold upload_file
        rw [hres]
        simp only [hhttp]
        simp only [if_neg (show ¬ ((env.start _).2.status ≠ some "success") by
          rw [hstat]; simp), hdata, hiid, huu, huf]

/-- Counterexample to claim C5 as stated: a "success" start envelope missing
`image_id` makes `upload_file` raise a `KeyError`, which is not an
`UploadError` (nor any `PixbinError` subclass). -/
theorem upload_start_shape_cex :
    upload_file (.fileObj none [1, 2, 3]) noGuess envCex5 "" false (-1) 1 60 =
      .error (.keyError "image_id") := by rfl

/-- A non-success start envelope raises the documented `UploadError`. -/
theorem upload_start_shape_spec_witness :
    upload_file (.fileObj none [1, 2]) noGuess envWit5 "" false (-1) 1 60 =
      .error (.uploadError "Upload start failed") :=
  (upload_start_shape_spec (.fileObj none [1, 2]) noGuess envWit5 "" false (-1) 1 60
    "image.jpg" [1, 2] 2 "application/octet-stream" rfl
    { filename := "image.jpg", content_type := "application/octet-stream",
      file_size := 2, caption := "", priv := false, retention_hours := -1 }
    rfl rfl).1 (by decide)

/-- Claim C6 (amended): the storage POST carries no bearer authorization
header (unlike the session used for API-host calls); a storage response
with status in [400, 600) — the range where `raise_for_status` raises —
surfaces as `UploadError` mentioning "S3 upload failed"; but a non-2xx
status outside that range (e.g. 304) does not raise: the workflow proceeds
to the dimension probe and complete phase, exactly as it does on a 2xx. -/
theorem s3_phase_spec (src : Source) (guess : String → Option String)
    (env : UploadEnv) (api_token caption : String) (priv : Bool) (retention_hours : Int)
    (poll_interval : ℚ) (max_wait : Int)
    (filename : String) (file_data : List Nat) (file_size : Nat) (content_type : String)
    (hres : resolveSource src guess = .ok (filename, file_data, file_size, content_type))
    (req : StartReq)
    (hreq : req = { filename := filename, content_type := content_type,
                    file_size := file_size, caption := caption, priv := priv,
                    retention_hours := retention_hours })
    (hhttp : handle_errors (env.start req).1 = none)
    (hstat : (env.start req).2.status = some "success")
    (d : StartDataDict) (iid uu : String) (uf : List (String × String))
    (hdata : (env.start req).2.data = some d)
    (hiid : d.image_id = some iid) (huu : d.upload_url = some uu)
    (huf : d.upload_fields = some uf) :
    (raiseForStatusRaises env.s3Status →
       upload_file src guess env caption priv retention_hours poll_interval max_wait =
         .error (.uploadError ("S3 upload failed: status " ++ toString env.s3Status))
       ∧ Mentions "S3 upload failed"
           ("S3 upload failed: status " ++ toString env.s3Status))
  ∧ (¬ raiseForStatusRaises env.s3Status →
       upload_file src guess env caption priv retention_hours poll_interval max_wait =
         upload_file src guess { env with s3Status := 200 }
           caption priv retention_hours poll_interval max_wait)
  ∧ s3UploadHeaders.lookup "Authorization" = none
  ∧ (sessionHeaders api_token).lookup "Authorization" = some ("Bearer " ++ api_token) := by
  subst hreq
  refine ⟨?_, ?_, rfl, rfl⟩
  · intro hraise
    constructor
    · unfold upload_file
      rw [hres]
      simp only [hhttp,
        if_neg (show ¬ ((env.start _).2.status ≠ some "success") by rw [hstat]; simp),
        hdata, hiid, huu, huf]
      rw [if_pos hraise]
    · exact ⟨"".data, (": status " ++ toString env.s3Status).data, by
        simp [String.data_append]⟩
  · intro hpass
    unfold upload_file
    rw [hres]
    simp only [hhttp,
      if_neg (show ¬ ((env.start _).2.status ≠ some "success") by rw [hstat]; simp),
      hdata, hiid, huu, huf]
    rw [if_neg hpass, if_neg (show ¬ raiseForStatusRaises 200 by decide)]

/-- Counterexample to claim C6 as stated: a storage response of status 304
(non-2xx) does not raise "S3 upload failed"; the upload proceeds through
the complete phase and succeeds. -/
theorem s3_phase_cex :
    upload_file (.fileObj none [1, 2, 3]) noGuess envCex6 "" false (-1) 1 0 =
      .ok "img123" := by rfl

/-- A 500 storage response does raise the documented S3 `UploadError`. -/
theorem s3_phase_spec_witness :
    upload_file (.fileObj none [1, 2, 3]) noGuess { envCex6 with s3Status := 500 }
        "" false (-1) 1 0 =
      .error (.uploadError ("S3 upload failed: status " ++ toString (500 : Nat))) :=
  ((s3_phase_spec (.fileObj none [1, 2, 3]) noGuess { envCex6 with s3Status := 500 }
    "tok" "" false (-1) 1 0
    "image.jpg" [1, 2, 3] 3 "application/octet-stream" rfl
    { filename := "image.jpg", content_type := "application/octet-stream",
      file_size := 3, caption := "", priv := false, retention_hours := -1 }
    rfl rfl rfl
    { image_id := some "img123", upload_url := some "https://s3.example/up",
      upload_fields := some [] } "img123" "https://s3.example/up" []
    rfl rfl rfl rfl).1 (show raiseForStatusRaises 500 by decide)).1
